import Mathlib

/-!
Verification of the OWNGPT model-container lifecycle manager and chat relay.

The definitions below are a shallow embedding of the Go backend:
* `safeModelName` / `safeModelNameDelete` embed the safe-name derivation in
  `ModelHandler.CreateModel` (handlers/chat_handler.go:162-163) and
  `DockerService.DeleteModel` (services/docker_service.go:601-602).
* `createModel` embeds `ModelHandler.CreateModel` (handlers/chat_handler.go:136-245),
  with the external container runtime abstracted as a `DriverEnv` of deterministic
  call outcomes and every externally visible action recorded as a `DriverEvent`.
* `sendMessage` / `sendMessageStreamRelay` embed `ChatHandler.SendMessage` and
  `ChatHandler.SendMessageStream` (handlers/chat_handler.go:25-104).
* `streamLoop` / `sendMessageStream` embed the decode loop of
  `OllamaService.SendMessageStream` (services/ollama_service.go:153-176).
* `waitForModelReady` embeds the timing skeleton of
  `DockerService.WaitForModelReady` (services/docker_service.go:620-639).
-/

/-- Embeds Go `strings.ReplaceAll(s, old, new)` for a single-character pattern:
every occurrence of the character `old` is replaced by `new`. -/
def replaceAllChar (s : String) (old new : Char) : String :=
  ⟨s.data.map (fun c => if c = old then new else c)⟩

/-- Embeds Go `strings.ToLower` (character-wise lower-casing; the model names
in play are ASCII, where `Char.toLower` agrees with Go). -/
def lowerStr (s : String) : String :=
  ⟨s.data.map Char.toLower⟩

/-- Safe-name derivation performed by `ModelHandler.CreateModel`
(handlers/chat_handler.go:162-163): lower-case, then replace `:` and `/` by `-`. -/
def safeModelName (raw : String) : String :=
  replaceAllChar (replaceAllChar (lowerStr raw) ':' '-') '/' '-'

/-- Safe-name derivation performed by `DockerService.DeleteModel`
(services/docker_service.go:601-602); `ModelHandler.DeleteModel`
(handlers/chat_handler.go:283-284) repeats the identical expression. -/
def safeModelNameDelete (raw : String) : String :=
  replaceAllChar (replaceAllChar (lowerStr raw) ':' '-') '/' '-'

/-- A prefix test on character lists, the building block for `containsSubstring`. -/
def listIsPrefix : List Char → List Char → Bool
  | [], _ => true
  | _ :: _, [] => false
  | a :: as, b :: bs => a = b && listIsPrefix as bs

/-- Embeds Go `strings.Contains(s, pat)`: `pat` occurs as a contiguous substring
of `s`. -/
def containsSubstring (s pat : String) : Bool :=
  (List.range (s.data.length + 1)).any (fun i => listIsPrefix pat.data (s.data.drop i))

/-- The process-wide current-model record (`models.ModelContainer`). -/
structure ModelContainer where
  name : String
  port : String
  isRunning : Bool
  deriving Repr, DecidableEq

/-- The zero value `models.ModelContainer{}` used to reset the record. -/
def emptyModel : ModelContainer := ⟨"", "", false⟩

/-- Externally visible actions taken by the lifecycle manager, in order.
`publish` records a write of the shared current-model record; the others are
driver, filesystem or probe invocations. -/
inductive DriverEvent where
  | unitExists (name : String)
  | startExisting (name : String)
  | probe (name : String) (timeout : Nat)
  | publish (rec : ModelContainer)
  | mkdirModels
  | writeDockerfile
  | build (image : String)
  | runUnit (image name port : String)
  | rmUnit (name : String)
  | rmImage (name : String) (ok : Bool)
  deriving Repr, DecidableEq

/-- Whether an event is a `build` or `run` driver call. -/
def DriverEvent.isBuildOrRun : DriverEvent → Bool
  | .build _ => true
  | .runUnit _ _ _ => true
  | _ => false

/-- Deterministic outcomes of the external world consulted by the manager:
container runtime answers, filesystem writes, and readiness probes. -/
structure DriverEnv where
  containerExists : String → Bool
  startOk : String → Bool
  probeOk : String → Nat → Bool
  mkdirOk : Bool
  writeOk : Bool
  buildOk : String → Bool
  runOk : String → Bool
  rmOk : String → Bool
  rmiOk : String → Bool

/-- Embeds `ModelHandler.stopCurrentModel` (handlers/chat_handler.go:349-359):
when the record is running and named, only mark it not-running; the code
comments explicitly that the container itself is not stopped, so the event
list is empty in every case. -/
def stopCurrentModel (st : ModelContainer) : ModelContainer × List DriverEvent :=
  if st.isRunning && st.name != "" then ({ st with isRunning := false }, []) else (st, [])

/-- Outcome of `ModelHandler.CreateModel`, one constructor per `return` site. -/
inductive CreateResult where
  | alreadyRunning (container port : String)
  | existingStarted (container : String)
  | mkdirError
  | writeError
  | buildError
  | runError
  | startError
  | created (container port : String)
  deriving Repr, DecidableEq

/-- Whether a `CreateModel` outcome carries `already_exists: true` in its JSON
response (the fast path and the restarted-existing-container path). -/
def CreateResult.alreadyExistsFlag : CreateResult → Bool
  | .alreadyRunning _ _ => true
  | .existingStarted _ => true
  | _ => false

/-- The rebuild tail of `ModelHandler.CreateModel`
(handlers/chat_handler.go:189-244): stop-current, prepare the build context,
build the image, run the container, publish the record, and probe with the
long 300-unit deadline. `ev` is the event trace accumulated so far. -/
def rebuildFromScratch (env : DriverEnv) (st : ModelContainer) (safe : String)
    (ev : List DriverEvent) : CreateResult × ModelContainer × List DriverEvent :=
  let stopped := stopCurrentModel st
  let st1 := stopped.1
  let ev1 := ev ++ stopped.2 ++ [DriverEvent.mkdirModels]
  if !env.mkdirOk then (.mkdirError, st1, ev1)
  else
    let ev2 := ev1 ++ [DriverEvent.writeDockerfile]
    if !env.writeOk then (.writeError, st1, ev2)
    else
      let image := "ollama-" ++ safe
      let ev3 := ev2 ++ [DriverEvent.build image]
      if !env.buildOk image then (.buildError, st1, ev3)
      else
        let container := image ++ "-container"
        let port := "11434"
        let ev4 := ev3 ++ [DriverEvent.runUnit image container port]
        if !env.runOk container then (.runError, st1, ev4)
        else
          let st2 : ModelContainer := ⟨container, port, true⟩
          let ev5 := ev4 ++ [DriverEvent.publish st2] ++ [DriverEvent.probe container 300]
          if !env.probeOk container 300 then (.startError, st2, ev5)
          else (.created container port, st2, ev5)

/-- Embeds `ModelHandler.CreateModel` (handlers/chat_handler.go:136-245).
Fast path: current record running and its name containing the lower-cased raw
model name. Existing-container path: start it, publish a provisional record,
probe with the short 30-unit deadline, and fall through to a full rebuild if
the start or the probe fails. -/
def createModel (env : DriverEnv) (st : ModelContainer) (rawModel : String) :
    CreateResult × ModelContainer × List DriverEvent :=
  if st.isRunning && containsSubstring st.name (lowerStr rawModel) then
    (.alreadyRunning st.name st.port, st, [])
  else
    let safe := safeModelName rawModel
    let container := "ollama-" ++ safe ++ "-container"
    if env.containerExists container then
      if env.startOk container then
        let st1 : ModelContainer := ⟨container, "11434", true⟩
        let ev := [DriverEvent.unitExists container, DriverEvent.startExisting container,
                   DriverEvent.publish st1, DriverEvent.probe container 30]
        if env.probeOk container 30 then (.existingStarted container, st1, ev)
        else rebuildFromScratch env st1 safe ev
      else
        rebuildFromScratch env st safe
          [DriverEvent.unitExists container, DriverEvent.startExisting container]
    else
      rebuildFromScratch env st safe [DriverEvent.unitExists container]

/-- Outcome of `ModelHandler.DeleteModel`, one constructor per `return` site. -/
inductive DeleteResult where
  | badRequest
  | removeError
  | success (model : String)
  deriving Repr, DecidableEq

/-- Embeds `DockerService.DeleteModel` (services/docker_service.go:600-617):
force-remove the container (failure aborts with an error), then remove the
image with the result deliberately ignored (`cmd.Run()` without an error
check). The image-removal outcome is recorded in the trace but never consulted. -/
def dockerDeleteModel (env : DriverEnv) (modelName : String) :
    Bool × List DriverEvent :=
  let safe := safeModelNameDelete modelName
  let container := "ollama-" ++ safe ++ "-container"
  if !env.rmOk container then (false, [DriverEvent.rmUnit container])
  else
    let image := "ollama-" ++ safe
    (true, [DriverEvent.rmUnit container, DriverEvent.rmImage image (env.rmiOk image)])

/-- Embeds `ModelHandler.DeleteModel` (handlers/chat_handler.go:270-293):
reject an empty name, delegate to `DockerService.DeleteModel`, then reset the
current record to the zero value iff its name equals the deleted container's
name (the handler recomputes the safe name with the same derivation). -/
def deleteModelHandler (env : DriverEnv) (st : ModelContainer) (modelName : String) :
    DeleteResult × ModelContainer × List DriverEvent :=
  if modelName = "" then (.badRequest, st, [])
  else
    match dockerDeleteModel env modelName with
    | (false, ev) => (.removeError, st, ev)
    | (true, ev) =>
      let container := "ollama-" ++ safeModelNameDelete modelName ++ "-container"
      let st1 := if st.name = container then emptyModel else st
      (.success modelName, st1, ev)

/-- Outcome of a chat handler: either the no-model 400 error, or delegation to
the inference client addressed at the captured unit name. -/
inductive ChatOutcome where
  | noModelError (msg : String)
  | delegated (unitName : String)
  deriving Repr, DecidableEq

/-- The error message both chat handlers return when no model is running. -/
def noModelMessage : String :=
  "No model is currently running. Please create a model first."

/-- Embeds `ChatHandler.SendMessage` (handlers/chat_handler.go:74-104): under
the read lock, fail if the record is not running; otherwise capture the unit
name, release, and call the inference client once with the captured name. The
second component lists the (unitName, message) inference calls performed. -/
def sendMessage (st : ModelContainer) (msg : String) :
    ChatOutcome × List (String × String) :=
  if !st.isRunning then (.noModelError noModelMessage, [])
  else
    let containerName := st.name
    (.delegated containerName, [(containerName, msg)])

/-- Embeds the guard of `ChatHandler.SendMessageStream`
(handlers/chat_handler.go:25-50), which is identical to `SendMessage`'s:
fail with the no-model error if the record is not running, else delegate the
streaming call to the inference client with the captured unit name. -/
def sendMessageStreamRelay (st : ModelContainer) (msg : String) :
    ChatOutcome × List (String × String) :=
  if !st.isRunning then (.noModelError noModelMessage, [])
  else
    let containerName := st.name
    (.delegated containerName, [(containerName, msg)])

/-- One decoded JSON object of the streaming inference response
(`models.OllamaResponse`). -/
structure OllamaResponse where
  response : String
  done : Bool
  deriving Repr, DecidableEq

/-- One iteration's decoder outcome in `OllamaService.SendMessageStream`:
either a decoded object or a decode failure. The list of steps ends when
`decoder.More()` reports no further values. -/
inductive DecodeStep where
  | ok (r : OllamaResponse)
  | fail
  deriving Repr, DecidableEq

/-- Embeds the decode loop of `OllamaService.SendMessageStream`
(services/ollama_service.go:153-176) plus the trailing send. `acc` is the
`fullResponse` builder. Returns the values sent on `responseChan` in order,
and whether an error was sent on `errorChan`. On a decode failure the
goroutine returns at once (error, no trailing value); on `done` it breaks;
after the loop it always sends the accumulated full response once. -/
def streamLoop : List DecodeStep → String → List String × Bool
  | [], acc => ([acc], false)
  | DecodeStep.fail :: _, _ => ([], true)
  | DecodeStep.ok r :: rest, acc =>
    let acc1 := if r.response != "" then acc ++ r.response else acc
    let emitted := if r.response != "" then [r.response] else []
    if r.done then (emitted ++ [acc1], false)
    else
      let tail := streamLoop rest acc1
      (emitted ++ tail.1, tail.2)

/-- The channel-level behaviour of `OllamaService.SendMessageStream` for a
given decoded body: the loop starting from an empty `fullResponse`. -/
def sendMessageStream (body : List DecodeStep) : List String × Bool :=
  streamLoop body ""

/-- Observation: does the loop hit a decode failure before terminating
(a `done` marker breaks the loop before any later step is examined)? -/
def hitsDecodeError : List DecodeStep → Bool
  | [] => false
  | DecodeStep.fail :: _ => true
  | DecodeStep.ok r :: rest => if r.done then false else hitsDecodeError rest

/-- Observation: the non-empty text fragments the loop forwards, in decode
order, up to the first decode failure or completion marker. -/
def fragments : List DecodeStep → List String
  | [] => []
  | DecodeStep.fail :: _ => []
  | DecodeStep.ok r :: rest =>
    let emitted := if r.response != "" then [r.response] else []
    if r.done then emitted else emitted ++ fragments rest

/-- Concatenation of a list of strings, left to right. -/
def concatAll : List String → String
  | [] => ""
  | s :: rest => s ++ concatAll rest

/-- Observation: the body contains neither a decode failure nor a completion
marker, i.e. the connection closed mid-generation. -/
def noDoneNoError (body : List DecodeStep) : Bool :=
  body.all fun s =>
    match s with
    | DecodeStep.ok r => !r.done
    | DecodeStep.fail => false

/-- The per-attempt HTTP client timeout of `DockerService.WaitForModelReady`
(services/docker_service.go:621): `http.Client{Timeout: 100 * time.Second}`. -/
def httpClientTimeout : Nat := 100

/-- The fixed poll interval of `DockerService.WaitForModelReady`
(services/docker_service.go:635): `time.Sleep(2 * time.Second)`. -/
def pollInterval : Nat := 2

/-- Embeds the timing skeleton of `DockerService.WaitForModelReady`
(services/docker_service.go:620-639). `attempts` supplies, for each HTTP
attempt the loop would make, its duration and whether it observed a 200
response; `t` is the elapsed time. While `t < timeout`, the next attempt runs:
success returns at `t + duration`, failure sleeps `pollInterval` and retries.
Once `t ≥ timeout` the loop exits with a timeout error at time `t`. Returns
(success flag, finish time). -/
def waitForModelReady (timeout : Nat) : List (Nat × Bool) → Nat → Bool × Nat
  | [], t => (false, t)
  | (d, ok) :: rest, t =>
    if t < timeout then
      if ok then (true, t + d)
      else waitForModelReady timeout rest (t + d + pollInterval)
    else (false, t)

/-- Claim C7 (confirmed): safe-name derivation is a pure function of the raw
name — lower-case then map `:` and `/` to `-` — with
`f "Llama2:13B" = "llama2-13b"` and `f "Code/Llama" = "code-llama"`, and the
derivation used by deletion coincides with the one used by activation. -/
theorem safeModelName_pure_examples :
    safeModelName "Llama2:13B" = "llama2-13b" ∧
    safeModelName "Code/Llama" = "code-llama" ∧
    ∀ s, safeModelNameDelete s = safeModelName s :=
  ⟨by decide, by decide, fun _ => rfl⟩

/-- Claim C9 (confirmed): the stop-current step performs no driver call (the
underlying unit is neither stopped nor removed), leaves `name` and `port`
unchanged, and only clears the running flag (which stays set exactly when the
record was running with an empty name, i.e. it is cleared in the guarded case). -/
theorem stopCurrentModel_frame (st : ModelContainer) :
    (stopCurrentModel st).2 = [] ∧
    (stopCurrentModel st).1.name = st.name ∧
    (stopCurrentModel st).1.port = st.port ∧
    (stopCurrentModel st).1.isRunning = (st.isRunning && st.name == "") := by
  obtain ⟨n, p, r⟩ := st
  cases r <;> by_cases hn : n = "" <;> simp [stopCurrentModel, hn]

/-- Claim C4 (confirmed): each chat handler, blocking or streaming, fails with
the no-model error and performs zero inference calls when the current record is
not running, and otherwise performs exactly one inference call addressed at the
unit name captured from the record. -/
theorem chatRelay_guard (st : ModelContainer) (msg : String) :
    sendMessage st msg =
      (if st.isRunning then (ChatOutcome.delegated st.name, [(st.name, msg)])
       else (ChatOutcome.noModelError noModelMessage, [])) ∧
    sendMessageStreamRelay st msg =
      (if st.isRunning then (ChatOutcome.delegated st.name, [(st.name, msg)])
       else (ChatOutcome.noModelError noModelMessage, [])) := by
  cases h : st.isRunning <;> simp [sendMessage, sendMessageStreamRelay, h]

/-- Claim C1 (counterexample): the fast path's guard tests containment of the
lower-cased raw name, not the safe name. With the current record running as
`ollama-llama2-13b-container` — whose name does contain the safe name of
`"llama2:13b"` — a repeat activation of `"llama2:13b"` still emits driver
calls, contradicting the claim's "returns immediately with no driver calls". -/
theorem createModel_fastPath_counterexample :
    (ModelContainer.mk "ollama-llama2-13b-container" "11434" true).isRunning = true ∧
    containsSubstring "ollama-llama2-13b-container" (safeModelName "llama2:13b") = true ∧
    (createModel
        ⟨fun _ => true, fun _ => true, fun _ _ => true, true, true,
         fun _ => true, fun _ => true, fun _ => true, fun _ => true⟩
        (ModelContainer.mk "ollama-llama2-13b-container" "11434" true)
        "llama2:13b").2.2 ≠ [] :=
  ⟨rfl, by decide, by decide⟩

/-- Claim C1 (amended, proved): after a first successful activation (so the
unit for the requested safe name exists, and starting it plus the short probe
succeed), a second activation with any raw name producing that safe name
returns with `already_exists = true` and never invokes build or run; and when
the code's actual fast-path guard holds — record running and its unit name
containing the lower-cased raw name — it returns with no driver calls at all. -/
theorem createModel_secondActivation_amended (env : DriverEnv) (st : ModelContainer)
    (raw : String)
    (hex : env.containerExists ("ollama-" ++ safeModelName raw ++ "-container") = true)
    (hst : env.startOk ("ollama-" ++ safeModelName raw ++ "-container") = true)
    (hpr : env.probeOk ("ollama-" ++ safeModelName raw ++ "-container") 30 = true) :
    (createModel env st raw).1.alreadyExistsFlag = true ∧
    (createModel env st raw).2.2.all (fun e => !e.isBuildOrRun) = true ∧
    ((st.isRunning && containsSubstring st.name (lowerStr raw)) = true →
      (createModel env st raw).2.2 = []) := by
  unfold createModel
  by_cases hfast : (st.isRunning && containsSubstring st.name (lowerStr raw)) = true
  · simp [hfast, CreateResult.alreadyExistsFlag]
  · simp [hfast, hex, hst, hpr, CreateResult.alreadyExistsFlag, DriverEvent.isBuildOrRun]

/-- Concrete instantiation of `createModel_secondActivation_amended`: a world
where the unit exists, starts, and probes ready, with an empty current record
and raw name `"mistral"`. -/
theorem createModel_secondActivation_amended_witness :
    (createModel
        ⟨fun _ => true, fun _ => true, fun _ _ => true, true, true,
         fun _ => true, fun _ => true, fun _ => true, fun _ => true⟩
        emptyModel "mistral").1.alreadyExistsFlag = true ∧
    (createModel
        ⟨fun _ => true, fun _ => true, fun _ _ => true, true, true,
         fun _ => true, fun _ => true, fun _ => true, fun _ => true⟩
        emptyModel "mistral").2.2.all (fun e => !e.isBuildOrRun) = true ∧
    ((emptyModel.isRunning && containsSubstring emptyModel.name (lowerStr "mistral")) = true →
      (createModel
          ⟨fun _ => true, fun _ => true, fun _ _ => true, true, true,
           fun _ => true, fun _ => true, fun _ => true, fun _ => true⟩
          emptyModel "mistral").2.2 = []) :=
  createModel_secondActivation_amended _ emptyModel "mistral" rfl rfl rfl

/-- Claim C2 (confirmed): when no unit with the derived name exists (and no
model is currently marked running), activation emits exactly the trace
exists-check, mkdir, write, build, run, publish, long probe — so build precedes
run precedes the probe, and the current record (name, port, running = true) is
published after `run` succeeds and before the probe; if `run` fails, nothing is
published and the record is unchanged. -/
theorem createModel_rebuild_order (env : DriverEnv) (st : ModelContainer) (raw : String)
    (h0 : st.isRunning = false)
    (h1 : env.containerExists ("ollama-" ++ safeModelName raw ++ "-container") = false)
    (h2 : env.mkdirOk = true) (h3 : env.writeOk = true)
    (h4 : env.buildOk ("ollama-" ++ safeModelName raw) = true) :
    (env.runOk ("ollama-" ++ safeModelName raw ++ "-container") = true →
      (createModel env st raw).2.2 =
        [DriverEvent.unitExists ("ollama-" ++ safeModelName raw ++ "-container"),
         DriverEvent.mkdirModels, DriverEvent.writeDockerfile,
         DriverEvent.build ("ollama-" ++ safeModelName raw),
         DriverEvent.runUnit ("ollama-" ++ safeModelName raw)
           ("ollama-" ++ safeModelName raw ++ "-container") "11434",
         DriverEvent.publish ⟨"ollama-" ++ safeModelName raw ++ "-container", "11434", true⟩,
         DriverEvent.probe ("ollama-" ++ safeModelName raw ++ "-container") 300] ∧
      (createModel env st raw).2.1 =
        ⟨"ollama-" ++ safeModelName raw ++ "-container", "11434", true⟩) ∧
    (env.runOk ("ollama-" ++ safeModelName raw ++ "-container") = false →
      (createModel env st raw).1 = CreateResult.runError ∧
      (createModel env st raw).2.1 = st ∧
      (createModel env st raw).2.2 =
        [DriverEvent.unitExists ("ollama-" ++ safeModelName raw ++ "-container"),
         DriverEvent.mkdirModels, DriverEvent.writeDockerfile,
         DriverEvent.build ("ollama-" ++ safeModelName raw),
         DriverEvent.runUnit ("ollama-" ++ safeModelName raw)
           ("ollama-" ++ safeModelName raw ++ "-container") "11434"]) := by
  constructor
  · intro h5
    by_cases h6 : env.probeOk ("ollama-" ++ safeModelName raw ++ "-container") 300 = false <;>
      simp [createModel, rebuildFromScratch, stopCurrentModel, h0, h1, h2, h3, h4, h5, h6]
  · intro h5
    simp [createModel, rebuildFromScratch, stopCurrentModel, h0, h1, h2, h3, h4, h5]

/-- Concrete instantiation of `createModel_rebuild_order`: a world with no
existing unit, build and run succeeding, for raw name `"mistral"`. -/
theorem createModel_rebuild_order_witness :
    (createModel
        ⟨fun _ => false, fun _ => true, fun _ _ => true, true, true,
         fun _ => true, fun _ => true, fun _ => true, fun _ => true⟩
        emptyModel "mistral").2.2 =
      [DriverEvent.unitExists ("ollama-" ++ safeModelName "mistral" ++ "-container"),
       DriverEvent.mkdirModels, DriverEvent.writeDockerfile,
       DriverEvent.build ("ollama-" ++ safeModelName "mistral"),
       DriverEvent.runUnit ("ollama-" ++ safeModelName "mistral")
         ("ollama-" ++ safeModelName "mistral" ++ "-container") "11434",
       DriverEvent.publish ⟨"ollama-" ++ safeModelName "mistral" ++ "-container", "11434", true⟩,
       DriverEvent.probe ("ollama-" ++ safeModelName "mistral" ++ "-container") 300] ∧
    (createModel
        ⟨fun _ => false, fun _ => true, fun _ _ => true, true, true,
         fun _ => true, fun _ => true, fun _ => true, fun _ => true⟩
        emptyModel "mistral").2.1 =
      ⟨"ollama-" ++ safeModelName "mistral" ++ "-container", "11434", true⟩ :=
  (createModel_rebuild_order _ emptyModel "mistral" rfl rfl rfl rfl rfl).1 rfl

/-- Claim C3 (confirmed): when the rebuild path runs to the final long probe
and that probe times out, activation reports a start error while the freshly
published current record stays published with `running = true` — no rollback. -/
theorem createModel_probeTimeout_keepsRecord (env : DriverEnv) (st : ModelContainer)
    (raw : String)
    (h0 : st.isRunning = false)
    (h1 : env.containerExists ("ollama-" ++ safeModelName raw ++ "-container") = false)
    (h2 : env.mkdirOk = true) (h3 : env.writeOk = true)
    (h4 : env.buildOk ("ollama-" ++ safeModelName raw) = true)
    (h5 : env.runOk ("ollama-" ++ safeModelName raw ++ "-container") = true)
    (h6 : env.probeOk ("ollama-" ++ safeModelName raw ++ "-container") 300 = false) :
    (createModel env st raw).1 = CreateResult.startError ∧
    (createModel env st raw).2.1 =
      ⟨"ollama-" ++ safeModelName raw ++ "-container", "11434", true⟩ := by
  simp [createModel, rebuildFromScratch, stopCurrentModel, h0, h1, h2, h3, h4, h5, h6]

/-- Concrete instantiation of `createModel_probeTimeout_keepsRecord`: run
succeeds but the 300-unit probe fails, for raw name `"mistral"`. -/
theorem createModel_probeTimeout_keepsRecord_witness :
    (createModel
        ⟨fun _ => false, fun _ => true, fun _ t => decide (t < 300), true, true,
         fun _ => true, fun _ => true, fun _ => true, fun _ => true⟩
        emptyModel "mistral").1 = CreateResult.startError ∧
    (createModel
        ⟨fun _ => false, fun _ => true, fun _ t => decide (t < 300), true, true,
         fun _ => true, fun _ => true, fun _ => true, fun _ => true⟩
        emptyModel "mistral").2.1 =
      ⟨"ollama-" ++ safeModelName "mistral" ++ "-container", "11434", true⟩ :=
  createModel_probeTimeout_keepsRecord _ emptyModel "mistral" rfl rfl rfl rfl rfl rfl
    (by decide)

/-- Characterisation of the streaming decode loop: starting from accumulator
`acc`, either a decode failure ends the stream with exactly the fragments
decoded so far and a terminal error, or the loop completes (by `done` or end of
body) and the fragments are followed by exactly one trailing value holding the
accumulated full text. -/
theorem streamLoop_characterisation (body : List DecodeStep) (acc : String) :
    streamLoop body acc =
      if hitsDecodeError body then (fragments body, true)
      else (fragments body ++ [acc ++ concatAll (fragments body)], false) := by
  induction body generalizing acc with
  | nil => simp [streamLoop, hitsDecodeError, fragments, concatAll]
  | cons s rest ih =>
    cases s with
    | fail => simp [streamLoop, hitsDecodeError, fragments]
    | ok r =>
      by_cases hd : r.done <;> by_cases hr : r.response = "" <;>
        (simp [streamLoop, hitsDecodeError, fragments, concatAll, hd, hr, ih,
               String.append_assoc];
         try (split <;> simp [String.append_assoc]))

/-- Claim C5 (confirmed): the streaming call forwards the non-empty fragments
in decode order; on graceful completion (completion marker or end of body)
exactly one trailing value carrying the concatenated full text follows them and
no error is emitted, while a mid-stream decode failure emits a terminal error
with no trailing full-text value — exactly one of the two, never both. -/
theorem streamRelay_completion_xor_error (body : List DecodeStep) :
    sendMessageStream body =
      if hitsDecodeError body then (fragments body, true)
      else (fragments body ++ [concatAll (fragments body)], false) := by
  have h := streamLoop_characterisation body ""
  simpa [sendMessageStream] using h

/-- Claim C10 (confirmed): if the body ends without a completion marker and
without a decode error, the accumulated full text is still emitted as the one
trailing value and no error is produced — the trailing full-text value is not
conditional on observing `done = true`. -/
theorem streamRelay_eof_emits_full (body : List DecodeStep)
    (h : noDoneNoError body = true) :
    sendMessageStream body = (fragments body ++ [concatAll (fragments body)], false) := by
  have hne : hitsDecodeError body = false := by
    induction body with
    | nil => rfl
    | cons s rest ih =>
      cases s with
      | fail => simp [noDoneNoError] at h
      | ok r =>
        simp only [noDoneNoError, List.all_cons, Bool.and_eq_true] at h
        have hd : r.done = false := by
          cases hdone : r.done <;> simp [hdone] at h ⊢
        simp [hitsDecodeError, hd]
        exact ih (by simpa [noDoneNoError] using h.2)
  have hc := streamLoop_characterisation body ""
  simpa [sendMessageStream, hne] using hc

/-- Concrete instantiation of `streamRelay_eof_emits_full`: two fragments, no
completion marker, no decode error. -/
theorem streamRelay_eof_emits_full_witness :
    sendMessageStream
        [DecodeStep.ok ⟨"he", false⟩, DecodeStep.ok ⟨"llo", false⟩] =
      (fragments [DecodeStep.ok ⟨"he", false⟩, DecodeStep.ok ⟨"llo", false⟩] ++
        [concatAll (fragments [DecodeStep.ok ⟨"he", false⟩, DecodeStep.ok ⟨"llo", false⟩])],
       false) :=
  streamRelay_eof_emits_full _ (by decide)

/-- Claim C6 (counterexample): the per-attempt HTTP timeout of the readiness
probe is 100 units, which is not shorter than the 30-unit overall deadline used
on the existing-container path, and a single hung attempt within that bound
stalls the wait 100 units past the deadline — far beyond one poll interval. -/
theorem waitForModelReady_overshoot_counterexample :
    26 ≤ httpClientTimeout ∧ 100 ≤ httpClientTimeout ∧
    waitForModelReady 30 [(26, false), (100, false)] 0 = (false, 130) ∧
    30 + pollInterval < 130 ∧ 30 < httpClientTimeout := by decide

/-- Bound on the finish time of the readiness-probe loop: if every attempt's
duration respects the per-attempt client timeout, the loop finishes no later
than `max` of its start time and the deadline plus one attempt timeout plus one
poll interval. -/
theorem waitForModelReady_finish_le (timeout : Nat) (attempts : List (Nat × Bool)) (t : Nat)
    (h : ∀ p ∈ attempts, p.1 ≤ httpClientTimeout) :
    (waitForModelReady timeout attempts t).2 ≤
      max t (timeout + httpClientTimeout + pollInterval) := by
  induction attempts generalizing t with
  | nil => simp [waitForModelReady]
  | cons p rest ih =>
    obtain ⟨d, ok⟩ := p
    have hd : d ≤ httpClientTimeout := h (d, ok) (List.mem_cons_self _ _)
    have hrest : ∀ q ∈ rest, q.1 ≤ httpClientTimeout := fun q hq =>
      h q (List.mem_cons_of_mem _ hq)
    simp only [waitForModelReady]
    by_cases ht : t < timeout
    · rw [if_pos ht]
      cases ok with
      | true =>
        have : t + d ≤ timeout + httpClientTimeout + pollInterval := by omega
        exact le_trans this (le_max_right _ _)
      | false =>
        refine le_trans (ih _ hrest) (max_le ?_ (le_max_right _ _))
        have : t + d + pollInterval ≤ timeout + httpClientTimeout + pollInterval := by omega
        exact le_trans this (le_max_right _ _)
    · rw [if_neg ht]
      exact le_max_left _ _

/-- Claim C6 (amended, proved): each HTTP attempt of the readiness probe is
bounded by the 100-unit per-attempt client timeout — which exceeds the 30-unit
short deadline rather than being shorter than both deadlines — so a hung
attempt can stall the wait by up to one attempt timeout plus one poll interval
past the deadline, and no further: the wait always finishes by
`timeout + 100 + 2`. -/
theorem waitForModelReady_bounded_overshoot (timeout : Nat) (attempts : List (Nat × Bool))
    (h : ∀ p ∈ attempts, p.1 ≤ httpClientTimeout) :
    (waitForModelReady timeout attempts 0).2 ≤
      timeout + httpClientTimeout + pollInterval := by
  have hb := waitForModelReady_finish_le timeout attempts 0 h
  simpa using hb

/-- Concrete instantiation of `waitForModelReady_bounded_overshoot`: the
30-unit deadline with a 26-unit failure followed by a full 100-unit hang. -/
theorem waitForModelReady_bounded_overshoot_witness :
    (waitForModelReady 30 [(26, false), (100, false)] 0).2 ≤
      30 + httpClientTimeout + pollInterval :=
  waitForModelReady_bounded_overshoot 30 [(26, false), (100, false)] (by decide)

/-- Claim C8 (confirmed): deletion force-removes the unit and attempts image
removal whose outcome is ignored (the call succeeds regardless of the
image-removal result); the current record is reset to the zero value exactly
when its name equals the removed unit's name, and is untouched otherwise. -/
theorem deleteModel_resets_iff_current (env : DriverEnv) (st : ModelContainer)
    (modelName : String) (h0 : modelName ≠ "")
    (h1 : env.rmOk ("ollama-" ++ safeModelNameDelete modelName ++ "-container") = true) :
    (deleteModelHandler env st modelName).1 = DeleteResult.success modelName ∧
    (deleteModelHandler env st modelName).2.2 =
      [DriverEvent.rmUnit ("ollama-" ++ safeModelNameDelete modelName ++ "-container"),
       DriverEvent.rmImage ("ollama-" ++ safeModelNameDelete modelName)
         (env.rmiOk ("ollama-" ++ safeModelNameDelete modelName))] ∧
    (st.name = "ollama-" ++ safeModelNameDelete modelName ++ "-container" →
      (deleteModelHandler env st modelName).2.1 = emptyModel) ∧
    (st.name ≠ "ollama-" ++ safeModelNameDelete modelName ++ "-container" →
      (deleteModelHandler env st modelName).2.1 = st) := by
  by_cases hc : st.name = "ollama-" ++ safeModelNameDelete modelName ++ "-container" <;>
    simp [deleteModelHandler, dockerDeleteModel, h0, h1, hc]

/-- Concrete instantiation of `deleteModel_resets_iff_current`: deleting the
currently active `"mistral"` resets the record even though every image removal
fails in this world. -/
theorem deleteModel_resets_iff_current_witness :
    (deleteModelHandler
        ⟨fun _ => true, fun _ => true, fun _ _ => true, true, true,
         fun _ => true, fun _ => true, fun _ => true, fun _ => false⟩
        (ModelContainer.mk "ollama-mistral-container" "11434" true) "mistral").1 =
      DeleteResult.success "mistral" ∧
    (deleteModelHandler
        ⟨fun _ => true, fun _ => true, fun _ _ => true, true, true,
         fun _ => true, fun _ => true, fun _ => true, fun _ => false⟩
        (ModelContainer.mk "ollama-mistral-container" "11434" true) "mistral").2.1 =
      emptyModel :=
  ⟨(deleteModel_resets_iff_current _ _ "mistral" (by decide) rfl).1,
   (deleteModel_resets_iff_current _ _ "mistral" (by decide) rfl).2.2.1 (by decide)⟩
